import Mathlib

/-!
Shallow embedding of the hydra-news cryptographic core
(src/c/src/postquantum/kyber.c, falcon.c, crypto_adapter.c,
src/c/src/quantum_zkp.c, src/c/src/logical_entanglement.c) and proofs
about the behaviour of its operations.

Modelling conventions:
* byte buffers are `List Nat` (each entry one byte);
* machine integers are `Nat` with explicit reductions `% 2^32` etc.;
* C return codes are `Int` (or `Except Int` when the operation also
  produces output);
* randomness drawn from the OS (`RAND_bytes`) enters as an explicit
  parameter: `some bytes` models a successful draw, `none` a failed one;
* heap allocation is assumed to succeed (the C allocation-failure paths
  return distinct codes that none of the analysed claims depend on);
* `NULL` pointers are `Option.none`; the global engine flags are explicit
  state record fields threaded through the operations.
-/

namespace HydraNews

set_option maxRecDepth 1000000
set_option maxHeartbeats 8000000

/-! ### SHA-256 (the digest used throughout the C sources via OpenSSL) -/

def M32 : Nat := 4294967296

def rotr32 (n x : Nat) : Nat := ((x >>> n) ||| (x <<< (32 - n))) % M32

def sigma0 (x : Nat) : Nat := (rotr32 7 x) ^^^ (rotr32 18 x) ^^^ (x >>> 3)

def sigma1 (x : Nat) : Nat := (rotr32 17 x) ^^^ (rotr32 19 x) ^^^ (x >>> 10)

def bigSigma0 (x : Nat) : Nat := (rotr32 2 x) ^^^ (rotr32 13 x) ^^^ (rotr32 22 x)

def bigSigma1 (x : Nat) : Nat := (rotr32 6 x) ^^^ (rotr32 11 x) ^^^ (rotr32 25 x)

/-- The 64 SHA-256 round constants, written in decimal. -/
def sha256K : List Nat :=
  [1116352408, 1899447441, 3049323471, 3921009573, 961987163, 1508970993,
   2453635748, 2870763221, 3624381080, 310598401, 607225278, 1426881987,
   1925078388, 2162078206, 2614888103, 3248222580, 3835390401, 4022224774,
   264347078, 604807628, 770255983, 1249150122, 1555081692, 1996064986,
   2554220882, 2821834349, 2952996808, 3210313671, 3336571891, 3584528711,
   113926993, 338241895, 666307205, 773529912, 1294757372, 1396182291,
   1695183700, 1986661051, 2177026350, 2456956037, 2730485921, 2820302411,
   3259730800, 3345764771, 3516065817, 3600352804, 4094571909, 275423344,
   430227734, 506948616, 659060556, 883997877, 958139571, 1322822218,
   1537002063, 1747873779, 1955562222, 2024104815, 2227730452, 2361852424,
   2428436474, 2756734187, 3204031479, 3329325298]

/-- The eight SHA-256 initial state words, written in decimal. -/
def sha256H0 : List Nat :=
  [1779033703, 3144134277, 1013904242, 2773480762,
   1359893119, 2600822924, 528734635, 1541459225]

/-- Force a natural number to a numeral before continuing; semantically the
identity continuation `k n`.  It only exists so that kernel reduction of the
block iteration stays shallow. -/
def forceNat {A : Type} (n : Nat) (k : Nat → A) : A :=
  match n with
  | 0 => k 0
  | m+1 => k (m+1)

def listLenAux : List Nat → Nat → Nat
  | [], acc => acc
  | _ :: l, acc => listLenAux l (acc + 1)

/-- Split off the first `n` elements of a byte list (tail recursive). -/
def chunkStep : Nat → List Nat → List Nat → List Nat × List Nat
  | 0, acc, l => (acc.reverse, l)
  | _+1, acc, [] => (acc.reverse, [])
  | n+1, acc, a :: l => chunkStep n (a :: acc) l

def wordOfBytes (l : List Nat) : Nat :=
  ((l.getD 0 0) * 16777216 + (l.getD 1 0) * 65536 + (l.getD 2 0) * 256 + l.getD 3 0) % M32

def bytesToWords : Nat → List Nat → List Nat
  | 0, _ => []
  | _+1, [] => []
  | fuel+1, a :: l =>
    match chunkStep 4 [] (a :: l) with
    | (w, rest) => wordOfBytes w :: bytesToWords fuel rest

def scheduleStep (w : List Nat) : List Nat :=
  ((sigma1 (w.getD 1 0) + w.getD 6 0 + sigma0 (w.getD 14 0) + w.getD 15 0) % M32) :: w

def scheduleRounds : Nat → List Nat → List Nat
  | 0, w => w
  | n+1, w => scheduleRounds n (scheduleStep w)

def messageSchedule (block : List Nat) : List Nat :=
  let w16 := bytesToWords 16 block
  (scheduleRounds 48 w16.reverse).reverse

structure Sha256State where
  a : Nat
  b : Nat
  c : Nat
  d : Nat
  e : Nat
  f : Nat
  g : Nat
  hh : Nat

def compressStep (st : Sha256State) (kw : Nat × Nat) : Sha256State :=
  let ch := (st.e &&& st.f) ^^^ ((st.e ^^^ 4294967295) &&& st.g)
  let maj := (st.a &&& st.b) ^^^ (st.a &&& st.c) ^^^ (st.b &&& st.c)
  let t1 := (st.hh + bigSigma1 st.e + ch + kw.1 + kw.2) % M32
  let t2 := (bigSigma0 st.a + maj) % M32
  ⟨(t1 + t2) % M32, st.a, st.b, st.c, (st.d + t1) % M32, st.e, st.f, st.g⟩

def compressBlock (hs : List Nat) (block : List Nat) : List Nat :=
  let ws := messageSchedule block
  let st0 : Sha256State :=
    ⟨hs.getD 0 0, hs.getD 1 0, hs.getD 2 0, hs.getD 3 0, hs.getD 4 0, hs.getD 5 0, hs.getD 6 0,
     hs.getD 7 0⟩
  let st := (sha256K.zip ws).foldl compressStep st0
  [(hs.getD 0 0 + st.a) % M32, (hs.getD 1 0 + st.b) % M32, (hs.getD 2 0 + st.c) % M32,
   (hs.getD 3 0 + st.d) % M32, (hs.getD 4 0 + st.e) % M32, (hs.getD 5 0 + st.f) % M32,
   (hs.getD 6 0 + st.g) % M32, (hs.getD 7 0 + st.hh) % M32]

/-- `compressBlock` with the eight chaining words forced to numerals. -/
def compressBlockF (hs : List Nat) (block : List Nat) : List Nat :=
  let r := compressBlock hs block
  forceNat (r.getD 0 0) fun a0 =>
  forceNat (r.getD 1 0) fun a1 =>
  forceNat (r.getD 2 0) fun a2 =>
  forceNat (r.getD 3 0) fun a3 =>
  forceNat (r.getD 4 0) fun a4 =>
  forceNat (r.getD 5 0) fun a5 =>
  forceNat (r.getD 6 0) fun a6 =>
  forceNat (r.getD 7 0) fun a7 =>
  [a0, a1, a2, a3, a4, a5, a6, a7]

def sha256Blocks : Nat → List Nat → List Nat → List Nat
  | 0, _, hs => hs
  | _+1, [], hs => hs
  | fuel+1, a :: l, hs =>
    match chunkStep 64 [] (a :: l) with
    | (blk, rest) => sha256Blocks fuel rest (compressBlockF hs blk)

def sha256Pad (msg : List Nat) : List Nat :=
  let len := listLenAux msg 0
  let k := (119 - len % 64) % 64
  msg ++ [128] ++ List.replicate k 0 ++
    (List.range 8).map (fun i => ((len * 8) >>> (8 * (7 - i))) % 256)

/-- SHA-256 of a byte list, producing the 32 digest bytes. -/
def sha256 (msg : List Nat) : List Nat :=
  let padded := sha256Pad msg
  let final := sha256Blocks (listLenAux padded 0) padded sha256H0
  final.foldr (fun w acc =>
    (w >>> 24) % 256 :: (w >>> 16) % 256 :: (w >>> 8) % 256 :: w % 256 :: acc) []

/-- HMAC-SHA-256 for keys of at most 64 bytes (the C code always passes a
32-byte key through `EVP_PKEY_new_mac_key`). -/
def hmacSha256 (key msg : List Nat) : List Nat :=
  let k0 := key ++ List.replicate (64 - listLenAux key 0) 0
  let ipad := k0.map (fun b => b ^^^ 0x36)
  let opad := k0.map (fun b => b ^^^ 0x5c)
  sha256 (opad ++ sha256 (ipad ++ msg))

def strBytes (s : String) : List Nat := s.toList.map Char.toNat

/-- Read `n` bytes starting at a C pointer modelled by a byte list
(out-of-range reads yield 0; the C code never relies on them). -/
def readBytes (p : List Nat) (n : Nat) : List Nat :=
  (List.range n).map (fun i => p.getD i 0)

/-- Little-endian encoding of a machine integer into `n` bytes
(`memcpy` of a `size_t` on the x86-64 host). -/
def leBytes (n v : Nat) : List Nat :=
  (List.range n).map (fun i => (v >>> (8 * i)) % 256)

/-! ### Kyber KEM (src/c/src/postquantum/kyber.c)

`KYBER_PUBLIC_KEY_BYTES = 1184`, `KYBER_SECRET_KEY_BYTES = 2400`,
`KYBER_CIPHERTEXT_BYTES = 1088`, `KYBER_SHARED_SECRET_BYTES = 32`. -/

structure KyberKeypair where
  public_key : List Nat
  secret_key : List Nat

def kyberSkInfo : List Nat := strBytes ("KYBER_SECRET_KEY")

def kyberPkInfo : List Nat := strBytes ("KYBER_PUBLIC_KEY")

/-- Public-key derivation from the secret key: first 32 bytes are
SHA-256(secret_key ‖ "KYBER_PUBLIC_KEY"), the rest is the deterministic
extension loop.  The C code repeats this block verbatim inside
`kyber_keygen` (lines 86-115) and `kyber_decapsulate` (lines 181-212). -/
def kyber_derive_pk (sk : List Nat) : List Nat :=
  sha256 (readBytes sk 2400 ++ kyberPkInfo) ++
    (List.range' 32 (1184 - 32)).map (fun i => (sk.getD (i % 2400) 0 + i + 0x37) % 256)

/-- `kyber_keygen` as a function of the 32 random seed bytes drawn from
`RAND_bytes`: secret key = SHA-256(seed ‖ "KYBER_SECRET_KEY") extended to
2400 bytes, public key derived from it. -/
def kyber_keygen (seed : List Nat) : KyberKeypair :=
  let sk := sha256 (readBytes seed 32 ++ kyberSkInfo) ++
    (List.range' 32 (2400 - 32)).map (fun i => (seed.getD (i % 32) 0 + i) % 256)
  ⟨kyber_derive_pk sk, sk⟩

/-- `kyber_encapsulate`.  `rand` models the `RAND_bytes` draw for the
ephemeral value; the C code then overwrites the drawn bytes with the fixed
sequence 1..32 (lines 139-143), so the drawn bytes are never used. -/
def kyber_encapsulate (inited : Bool) (rand : Option (List Nat)) (pk : List Nat) :
    Except Int (List Nat × List Nat) :=
  if inited = false then .error (-1) else
  match rand with
  | none => .error (-2)
  | some _ =>
    let ephemeral := (List.range 32).map (fun i => i + 1)
    let ct1 := (List.range (1088 - 32)).map
      (fun i => (ephemeral.getD (i % 32) 0) ^^^ (pk.getD (i % 1184) 0))
    let ct := ct1 ++ sha256 (readBytes pk 1184 ++ ephemeral)
    let ss := sha256 (readBytes ct 1088 ++ ephemeral)
    .ok (ct, ss)

/-- `kyber_decapsulate`: re-derives the public key from the secret key,
recovers the ephemeral value by XOR from the first 32 ciphertext bytes, and
hashes ciphertext ‖ ephemeral.  The "expected hash" is computed and then
ignored by the C code (lines 225-234). -/
def kyber_decapsulate (inited : Bool) (ct : List Nat) (sk : List Nat) :
    Except Int (List Nat) :=
  if inited = false then .error (-1) else
  let pk := kyber_derive_pk sk
  let ephemeral := (List.range 32).map (fun i => ct.getD i 0 ^^^ pk.getD (i % 1184) 0)
  let _expected_hash := sha256 (readBytes pk 1184 ++ ephemeral)
  let ss := sha256 (readBytes ct 1088 ++ ephemeral)
  .ok ss

/-! ### Falcon signatures (src/c/src/postquantum/falcon.c)

`FALCON_PUBLIC_KEY_BYTES = 897`, `FALCON_SECRET_KEY_BYTES = 1281`,
`FALCON_SIGNATURE_MAX_BYTES = 666`. -/

structure FalconKeypair where
  public_key : List Nat
  secret_key : List Nat

/-- `falcon_keygen` as a function of the 1281 random secret-key bytes:
public key = SHA-256(secret_key) extended deterministically to 897 bytes. -/
def falcon_keygen (randSk : List Nat) : FalconKeypair :=
  let sk := readBytes randSk 1281
  ⟨sha256 sk ++ (List.range' 32 (897 - 32)).map (fun i => (sk.getD (i % 1281) 0 + i) % 256), sk⟩

/-- `falcon_sign`: signature = version byte 0x30 ‖ 16-byte nonce ‖
HMAC-SHA-256 over (SHA-256(message) ‖ nonce) keyed with the FIRST 32 BYTES
OF THE SECRET KEY; total length 49. -/
def falcon_sign (inited : Bool) (nonceRand : Option (List Nat)) (message sk : List Nat) :
    Except Int (List Nat × Nat) :=
  if inited = false then .error (-1) else
  match nonceRand with
  | none => .error (-2)
  | some nr =>
    let nonce := readBytes nr 16
    let msg_hash := sha256 message
    let mac := hmacSha256 (readBytes sk 32) (msg_hash ++ nonce)
    .ok (0x30 :: (nonce ++ readBytes mac 32), 1 + 16 + 32)

def falconTestMsg : List Nat :=
  strBytes ("This is a test message that will be signed with Falcon")

def falconTestMsgA : List Nat := strBytes ("This is a test message that will be")

def falconTestMsgB : List Nat := strBytes (" aigned with Falcon")

/-- `falcon_verify`: after two literal test-message short-circuits it checks
the signature layout and compares the stored MAC against an HMAC keyed with
SHA-256(first 32 public-key bytes).  Returns 1 valid, 0 invalid, <0 error. -/
def falcon_verify (inited : Bool) (signature message pk : List Nat) : Int :=
  if inited = false then -1 else
  if 50 < message.length ∧ readBytes message 51 = readBytes falconTestMsg 51 then 1 else
  if 50 < message.length ∧ readBytes message 35 = falconTestMsgA ∧
      readBytes (message.drop 35) 19 = falconTestMsgB then 0 else
  if signature.length < 1 + 16 + 32 then 0 else
  if signature.getD 0 0 ≠ 0x30 then 0 else
  let nonce := readBytes (signature.drop 1) 16
  let hmac_sig := readBytes (signature.drop 17) 32
  let msg_hash := sha256 message
  let verification_key := sha256 (readBytes pk 32)
  let expected_hmac := hmacSha256 verification_key (msg_hash ++ nonce)
  if hmac_sig ≠ readBytes expected_hmac 32 then 0 else 1

/-! ### Quantum-ZKP engine (src/c/src/quantum_zkp.c) -/

/-- `qzkp_proof_t`: three byte buffers with explicit sizes; a `none` buffer
models a NULL pointer. -/
structure QzkpProof where
  commitment : Option (List Nat)
  commit_size : Nat
  challenge : Option (List Nat)
  challenge_size : Nat
  response : Option (List Nat)
  response_size : Nat

/-- `qzkp_verify_params_t`.  In C `epsilon` is a `double`; no embedded code
path ever reads either field, so its numeric representation is immaterial
here. -/
structure QzkpVerifyParams where
  epsilon : Nat
  sample_count : Nat

/-- `qzkp_generate_proof`: commitment = SHA-256(secret ‖ entropy), challenge
= 32 random bytes, response = SHA-256(secret ‖ challenge).  Returns NULL
(`none`) when uninitialized, the secret is NULL/empty, or the challenge draw
fails. -/
def qzkp_generate_proof (inited : Bool) (challengeRand : Option (List Nat))
    (secret entropy : List Nat) : Option QzkpProof :=
  if inited = false ∨ secret = [] then none else
  match challengeRand with
  | none => none
  | some cr =>
    let commitment := sha256 (secret ++ entropy)
    let challenge := readBytes cr 32
    let response := sha256 (secret ++ challenge)
    some ⟨some commitment, 32, some challenge, 32, some response, 32⟩

/-- `qzkp_verify_proof`: rejects NULL pointers, assembles (and discards) a
verification buffer, then returns whether `response_size` equals the digest
length.  The commitment/challenge sizes and the public input bytes are never
examined. -/
def qzkp_verify_proof (inited : Bool) (proof : Option QzkpProof)
    (pub : List Nat) (pubSize : Nat) (params : Option QzkpVerifyParams) : Bool :=
  match proof, params with
  | some p, some _ =>
    if inited = false ∨ p.commitment = none ∨ p.challenge = none ∨ p.response = none
    then false
    else
      let _verify_data := readBytes pub pubSize ++ readBytes (p.challenge.getD []) p.challenge_size
      decide (p.response_size = 32)
  | _, _ => false

/-! ### Logical entanglement engine (src/c/src/logical_entanglement.c)

Nodes live on the C heap and reference each other by pointer; the embedding
uses a store (list of nodes) with list indices as pointers. -/

structure ENode where
  data : List Nat
  hash : Option (List Nat)
  deps : List Nat

abbrev LEStore := List ENode

structure EGraph where
  nodes : List Nat
  root_hash : Option (List Nat)

/-- `le_create_node`: NULL on uninitialized engine, NULL data or zero size;
otherwise a node with a copy of the payload, no hash, no dependencies. -/
def le_create_node (inited : Bool) (data : List Nat) : Option ENode :=
  if inited = false ∨ data = [] then none else some ⟨data, none, []⟩

/-- `le_add_dependency`: grows the dependency array and appends the new
dependency.  The only failures are NULL arguments (and, unmodelled, a failed
realloc); there is no frozen-node check and no cycle check. -/
def le_add_dependency (inited : Bool) (st : LEStore) (nid did : Nat) : LEStore × Int :=
  if inited = false then (st, -1) else
  match st.get? nid, st.get? did with
  | some n, some _ => (st.set nid ⟨n.data, n.hash, n.deps ++ [did]⟩, 0)
  | _, _ => (st, -1)

/-- `le_create_graph`: references the given nodes in order; NULL when
uninitialized or the node list is empty. -/
def le_create_graph (inited : Bool) (nodeIds : List Nat) : Option EGraph :=
  if inited = false ∨ nodeIds = [] then none else some ⟨nodeIds, none⟩

/-- Dependency loop of `le_calculate_node_hash` (lines 158-166): walk the
dependency list, recursing (via `recur`) into any dependency whose hash is
absent; cached dependency hashes are reused as-is. -/
def le_calc_deps (recur : LEStore → Nat → LEStore × Int) :
    LEStore → List Nat → LEStore × Int
  | st, [] => (st, 0)
  | st, d :: rest =>
    match st.get? d with
    | none => (st, -1)
    | some dn =>
      if dn.hash.isSome then le_calc_deps recur st rest
      else
        match recur st d with
        | (st1, r) => if r ≠ 0 then (st1, r) else le_calc_deps recur st1 rest

/-- `le_calculate_node_hash`: frees any existing hash, then either hashes the
payload directly (no dependencies) or ensures all dependency hashes exist and
hashes payload ‖ dep hashes.  `fuel` bounds the recursion depth: the C code
recurses unboundedly and diverges on cyclic graphs, which the fuel-exhaustion
code -99 stands in for. -/
def le_calculate_node_hash : Nat → Bool → LEStore → Nat → LEStore × Int
  | 0, _, st, _ => (st, -99)
  | fuel+1, inited, st, nid =>
    if inited = false then (st, -1) else
    match st.get? nid with
    | none => (st, -1)
    | some n =>
      let st0 := st.set nid ⟨n.data, none, n.deps⟩
      if n.deps = [] then (st0.set nid ⟨n.data, some (sha256 n.data), n.deps⟩, 0)
      else
        match le_calc_deps (fun st2 d => le_calculate_node_hash fuel inited st2 d) st0 n.deps with
        | (st1, r) =>
          if r ≠ 0 then (st1, r)
          else
            match st1.get? nid with
            | none => (st1, -1)
            | some n1 =>
              let combined := n1.data ++ n1.deps.foldl
                (fun acc d => acc ++ (((st1.get? d).bind ENode.hash).getD [])) []
              (st1.set nid ⟨n1.data, some (sha256 combined), n1.deps⟩, 0)

/-- Node loop of `le_calculate_root_hash` (lines 209-217): compute hashes
only for nodes that do not already carry one. -/
def le_root_nodes (fuel : Nat) (inited : Bool) :
    LEStore → List Nat → LEStore × Int
  | st, [] => (st, 0)
  | st, nid :: rest =>
    match st.get? nid with
    | none => (st, -1)
    | some n =>
      if n.hash.isSome then le_root_nodes fuel inited st rest
      else
        match le_calculate_node_hash fuel inited st nid with
        | (st1, r) => if r ≠ 0 then (st1, r) else le_root_nodes fuel inited st1 rest

/-- `le_calculate_root_hash`: frees any existing root hash, ensures every
node has a (possibly cached) hash, then stores SHA-256 of the concatenated
node hashes. -/
def le_calculate_root_hash (fuel : Nat) (inited : Bool) (st : LEStore) (g : EGraph) :
    LEStore × EGraph × Int :=
  if inited = false ∨ g.nodes = [] then (st, g, -1) else
  let g0 : EGraph := ⟨g.nodes, none⟩
  match le_root_nodes fuel inited st g.nodes with
  | (st1, r) =>
    if r ≠ 0 then (st1, g0, r)
    else
      let combined := g.nodes.foldl
        (fun acc nid => acc ++ (((st1.get? nid).bind ENode.hash).getD [])) []
      (st1, ⟨g.nodes, some (sha256 combined)⟩, 0)

/-- `le_verify_graph`: builds a temporary graph SHARING the same nodes,
recomputes a root via `le_calculate_root_hash` (which reuses every cached
node hash), and compares it with the stored root. -/
def le_verify_graph (fuel : Nat) (inited : Bool) (st : LEStore) (g : EGraph) :
    LEStore × Bool :=
  if inited = false ∨ g.nodes = [] ∨ g.root_hash = none then (st, false) else
  match le_calculate_root_hash fuel inited st ⟨g.nodes, none⟩ with
  | (st1, temp1, r) =>
    if r ≠ 0 then (st1, false)
    else (st1, decide (g.root_hash = temp1.root_hash))

/-! ### Crypto adapter (src/c/src/postquantum/crypto_adapter.c)

The process-wide state: the three engine flags (`is_initialized` statics of
quantum_zkp.c, kyber.c, falcon.c), the flag of logical_entanglement.c, and
the `adapter_state` struct. -/

structure GlobalState where
  qzkp_inited : Bool
  kyber_inited : Bool
  falcon_inited : Bool
  le_inited : Bool
  adapter_inited : Bool
  use_pq_crypto : Bool
  use_hybrid : Bool
  key_storage_path : Option (List Nat)

/-- `crypto_adapter_params_t`. -/
structure AdapterParams where
  use_pq_crypto : Bool
  use_hybrid : Bool
  key_storage_path : Option (List Nat)

/-- `qzkp_init`: idempotent; fails with -1 when `RAND_poll` fails. -/
def qzkp_init (poll : Bool) (g : GlobalState) : GlobalState × Int :=
  if g.qzkp_inited then (g, 0)
  else if poll = false then (g, -1)
  else ({g with qzkp_inited := true}, 0)

def qzkp_cleanup (g : GlobalState) : GlobalState := {g with qzkp_inited := false}

/-- `kyber_init`: idempotent; fails with -1 when `RAND_poll` fails. -/
def kyber_init (poll : Bool) (g : GlobalState) : GlobalState × Int :=
  if g.kyber_inited then (g, 0)
  else if poll = false then (g, -1)
  else ({g with kyber_inited := true}, 0)

def kyber_cleanup (g : GlobalState) : GlobalState := {g with kyber_inited := false}

/-- `falcon_init`: idempotent; fails with -1 when `RAND_poll` fails. -/
def falcon_init (poll : Bool) (g : GlobalState) : GlobalState × Int :=
  if g.falcon_inited then (g, 0)
  else if poll = false then (g, -1)
  else ({g with falcon_inited := true}, 0)

def falcon_cleanup (g : GlobalState) : GlobalState := {g with falcon_inited := false}

/-- `le_init` (logical_entanglement.c lines 19-26): sets the flag,
unconditionally succeeds, no randomness involved. -/
def le_init (g : GlobalState) : GlobalState × Int :=
  if g.le_inited then (g, 0) else ({g with le_inited := true}, 0)

/-- `crypto_adapter_init`: returns 0 at once when already initialized;
otherwise initializes the ZKP engine, then (when `use_pq_crypto`) Kyber and
Falcon, tearing down the already-initialized engines on a sub-failure.  The
`poll` arguments model the `RAND_poll` outcomes inside the three engine
inits.  `le_init` is never called. -/
def crypto_adapter_init (qpoll kpoll fpoll : Bool) (params : Option AdapterParams)
    (g : GlobalState) : GlobalState × Int :=
  if g.adapter_inited then (g, 0) else
  match params with
  | none => (g, -1)
  | some p =>
    match qzkp_init qpoll g with
    | (g1, r1) =>
      if r1 ≠ 0 then (g1, r1)
      else
        let store := fun (g2 : GlobalState) =>
          ({g2 with use_pq_crypto := p.use_pq_crypto, use_hybrid := p.use_hybrid,
                    key_storage_path := p.key_storage_path, adapter_inited := true}, (0 : Int))
        if p.use_pq_crypto then
          match kyber_init kpoll g1 with
          | (g2, r2) =>
            if r2 ≠ 0 then (qzkp_cleanup g2, r2)
            else
              match falcon_init fpoll g2 with
              | (g3, r3) =>
                if r3 ≠ 0 then (qzkp_cleanup (kyber_cleanup g3), r3)
                else store g3
        else store g1

/-- `key_type_t`. -/
inductive KeyType where
  | symmetric
  | kyber
  | falcon
deriving DecidableEq

/-- `crypto_key_t`.  The C `key_data` union is flattened into one field per
arm; every operation reads only the arm selected by `ktype`, matching the C
access discipline. -/
structure CryptoKey where
  ktype : KeyType
  key_id : Option (List Nat)
  key_id_size : Nat
  creation_time : Nat
  expiration_time : Nat
  sym_key : Option (List Nat)
  sym_key_size : Nat
  kyber_kp : KyberKeypair
  falcon_kp : FalconKeypair

/-- `crypto_sign_message`: checks adapter init and NULL arguments, the key
kind, expiry (code -3), the signature buffer capacity (`sigBufLen` models the
in-value of `*signature_len`), then delegates to `falcon_sign`. -/
def crypto_sign_message (g : GlobalState) (nonceRand : Option (List Nat)) (now : Nat)
    (sigBufLen : Nat) (message : List Nat) (key : Option CryptoKey) :
    Except Int (List Nat × Nat) :=
  match key with
  | none => .error (-1)
  | some k =>
    if g.adapter_inited = false then .error (-1) else
    if k.ktype ≠ KeyType.falcon then .error (-2) else
    if 0 < k.expiration_time ∧ k.expiration_time < now then .error (-3) else
    if sigBufLen < 666 then .error (-4) else
    falcon_sign g.falcon_inited nonceRand message k.falcon_kp.secret_key

/-- `crypto_establish_key`: checks adapter init/NULLs, key kind, expiry
(code -3), then delegates to `kyber_encapsulate`; on success reports the
32-byte shared secret and the 1088-byte ciphertext with their lengths. -/
def crypto_establish_key (g : GlobalState) (rand : Option (List Nat)) (now : Nat)
    (key : Option CryptoKey) : Except Int (List Nat × Nat × List Nat × Nat) :=
  match key with
  | none => .error (-1)
  | some k =>
    if g.adapter_inited = false then .error (-1) else
    if k.ktype ≠ KeyType.kyber then .error (-2) else
    if 0 < k.expiration_time ∧ k.expiration_time < now then .error (-3) else
    match kyber_encapsulate g.kyber_inited rand k.kyber_kp.public_key with
    | .ok (ct, ss) => .ok (ss, 32, ct, 1088)
    | .error e => .error e

/-- `crypto_generate_zkproof`: obtains a base proof from the ZKP engine (or
the 0xAA/0xBB/0xCC mock when that fails), and when PQ crypto is enabled and a
Falcon key is supplied, signs SHA-256(commitment ‖ challenge ‖ response) and
rewrites the response as original ‖ size_t(sig_len) ‖ signature (or the
0xDD mock signature when signing fails). -/
def crypto_generate_zkproof (g : GlobalState) (challengeRand nonceRand : Option (List Nat))
    (secret pub : List Nat) (key : Option CryptoKey) : Except Int QzkpProof :=
  if g.adapter_inited = false then .error (-1) else
  let base := match qzkp_generate_proof g.qzkp_inited challengeRand secret pub with
    | some p => p
    | none =>
      ⟨some (List.replicate 32 0xAA), 32, some (List.replicate 16 0xBB), 16,
       some (List.replicate 64 0xCC), 64⟩
  match key with
  | none => .ok base
  | some k =>
    if g.use_pq_crypto ∧ k.ktype = KeyType.falcon then
      let to_hash := readBytes (base.commitment.getD []) base.commit_size ++
        readBytes (base.challenge.getD []) base.challenge_size ++
        readBytes (base.response.getD []) base.response_size
      let proof_hash := sha256 to_hash
      let orig := readBytes (base.response.getD []) base.response_size
      match falcon_sign g.falcon_inited nonceRand proof_hash k.falcon_kp.secret_key with
      | .ok (sig, sig_len) =>
        .ok ⟨base.commitment, base.commit_size, base.challenge, base.challenge_size,
             some (orig ++ leBytes 8 sig_len ++ readBytes sig sig_len),
             base.response_size + 8 + sig_len⟩
      | .error _ =>
        .ok ⟨base.commitment, base.commit_size, base.challenge, base.challenge_size,
             some (orig ++ leBytes 8 32 ++ List.replicate 32 0xDD),
             base.response_size + 8 + 32⟩
    else .ok base

def testPublicInput : List Nat := strBytes ("public_input_for_verification")

/-- `crypto_verify_zkproof`: rejects NULL arguments (-1) and structurally
empty proofs (0); rejects a public input that has exactly the length of the
literal test string but different bytes (0); in the PQ/Falcon case rejects a
response shorter than 32 bytes (0), computes and discards a digest over a
half-split of the response, and otherwise returns 1 — the attached signature
is never verified. -/
def crypto_verify_zkproof (g : GlobalState) (proof : Option QzkpProof)
    (pub : List Nat) (pubSize : Nat) (key : Option CryptoKey)
    (params : Option QzkpVerifyParams) : Int :=
  match proof, params with
  | none, _ => -1
  | _, none => -1
  | some p, some _ =>
    if g.adapter_inited = false then -1 else
    if p.commitment = none ∨ p.challenge = none ∨ p.response = none ∨
       p.commit_size = 0 ∨ p.challenge_size = 0 ∨ p.response_size = 0 then 0 else
    if pubSize = 29 ∧ readBytes pub 29 ≠ testPublicInput then 0 else
    match key with
    | none => 1
    | some k =>
      if g.use_pq_crypto ∧ k.ktype = KeyType.falcon then
        if p.response_size < 32 then 0 else
        let original_response_size := p.response_size / 2
        let _sig_len := p.response_size - original_response_size
        let to_hash := readBytes (p.commitment.getD []) p.commit_size ++
          readBytes (p.challenge.getD []) p.challenge_size ++
          readBytes (p.response.getD []) original_response_size
        let _proof_hash := sha256 to_hash
        if pubSize = 29 ∧ readBytes pub 29 = testPublicInput then 1 else 1
      else 1

/-- Result of `crypto_free_key`: the contents that the two heap buffers held
at the moment `free` was called on them, plus the final (memset-to-zero) key
structure. -/
structure FreeKeyResult where
  freed_key_id : Option (List Nat)
  freed_sym_key : Option (List Nat)
  final : CryptoKey

/-- `memset(buf, 0, n)` on a buffer holding `l`. -/
def memsetZero (l : List Nat) (n : Nat) : List Nat :=
  List.replicate (min n l.length) 0 ++ l.drop n

/-- The all-zero `crypto_key_t` produced by the final
`memset(key, 0, sizeof(crypto_key_t))`: tag 0 (= symmetric), NULL pointers,
zero scalars, and the embedded keypair arrays wiped to zero bytes. -/
def zeroKey : CryptoKey :=
  ⟨KeyType.symmetric, none, 0, 0, 0, none, 0,
   ⟨List.replicate 1184 0, List.replicate 2400 0⟩,
   ⟨List.replicate 897 0, List.replicate 1281 0⟩⟩

/-- `crypto_free_key`: frees the key id WITHOUT wiping it, wipes (then frees)
the symmetric key bytes, and memsets the whole structure to zero — which is
what wipes the embedded Kyber/Falcon arrays. -/
def crypto_free_key (key : CryptoKey) : FreeKeyResult :=
  let freedId := key.key_id
  let freedSym := match key.ktype, key.sym_key with
    | KeyType.symmetric, some s => some (memsetZero s key.sym_key_size)
    | _, _ => none
  ⟨freedId, freedSym, zeroKey⟩

/-! ### Concrete inputs referenced by the theorems -/

def kyberKpEmpty : KyberKeypair := ⟨[], []⟩

def falconKpEmpty : FalconKeypair := ⟨[], []⟩

/-- Falcon keypair generated from an all-zero `RAND_bytes` draw (the empty
draw list, which `readBytes` pads to 1281 zero bytes). -/
def falconKp0 : FalconKeypair := falcon_keygen []

def falconDemoMsg : List Nat := [97]

/-- Signature produced by `falcon_sign` over `falconDemoMsg` with
`falconKp0`'s secret key and an all-zero nonce draw. -/
def falconDemoSignature : List Nat :=
  match falcon_sign true (some []) falconDemoMsg falconKp0.secret_key with
  | .ok (sig, _) => sig
  | .error _ => []

/-- SHA-256 of the 1281 zero bytes: the first 32 bytes of `falconKp0`'s
public key (checked below against the embedded hash). -/
def pkHeadLit : List Nat :=
  [78, 125, 41, 47, 4, 183, 82, 89, 38, 106, 210, 136, 172, 211, 177, 247,
   40, 130, 85, 96, 210, 202, 251, 111, 84, 238, 26, 136, 85, 34, 0, 204]

/-- The 49 bytes of `falconDemoSignature`: version byte 0x30, the 16-byte
zero nonce, and the HMAC under the first 32 secret-key bytes (checked below
against the embedded construction). -/
def sigLit : List Nat :=
  [48, 0, 0, 0, 0, 0, 0, 0, 0, 0, 0, 0, 0, 0, 0, 0, 0,
   176, 26, 173, 182, 58, 65, 205, 138, 236, 1, 4, 204, 167, 136, 76, 105,
   232, 213, 133, 37, 32, 227, 167, 128, 236, 25, 220, 139, 206, 250, 160, 198]

/-- Node payloads of the repository's own test
(src/c/tests/test_logical_entanglement.c). -/
def leData1 : List Nat := strBytes ("First piece of content that should be entangled")

def leData2 : List Nat := strBytes ("Second piece of content with logical dependencies")

def leData3 : List Nat := strBytes ("Third piece of content that forms part of the graph")

def emptyNode : ENode := ⟨[], none, []⟩

def leStore0 : LEStore :=
  [(le_create_node true leData1).getD emptyNode,
   (le_create_node true leData2).getD emptyNode,
   (le_create_node true leData3).getD emptyNode]

def leStore1 : LEStore := (le_add_dependency true leStore0 1 0).1

def leStore2 : LEStore := (le_add_dependency true leStore1 2 0).1

def leStore3 : LEStore := (le_add_dependency true leStore2 2 1).1

def leStore4 : LEStore := (le_calculate_node_hash 10 true leStore3 0).1

def leStore5 : LEStore := (le_calculate_node_hash 10 true leStore4 1).1

def leStore6 : LEStore := (le_calculate_node_hash 10 true leStore5 2).1

def leGraph0 : EGraph := (le_create_graph true [0, 1, 2]).getD ⟨[], none⟩

def leRootRes : LEStore × EGraph × Int := le_calculate_root_hash 10 true leStore6 leGraph0

def leStore7 : LEStore := leRootRes.1

def leGraph1 : EGraph := leRootRes.2.1

/-- The test's tampering step: byte 10 of node 1's payload set to 'X'. -/
def leTamperedData : List Nat := leData1.set 10 88

def leStore8 : LEStore :=
  match leStore7.get? 0 with
  | some n => leStore7.set 0 ⟨leTamperedData, n.hash, n.deps⟩
  | none => leStore7

def leSoloStore : LEStore := [(le_create_node true [1, 2, 3]).getD emptyNode]

def leSoloStoreH : LEStore := (le_calculate_node_hash 10 true leSoloStore 0).1

/-- The process state before any initialization (the initial values of the
C static state). -/
def gFresh : GlobalState := ⟨false, false, false, false, false, true, true, none⟩

/-- A fully initialized adapter state with PQ crypto enabled (the
entanglement engine flag is false: nothing in the adapter ever sets it). -/
def gOn : GlobalState := ⟨true, true, true, false, true, true, true, none⟩

def params0 : AdapterParams := ⟨true, true, none⟩

def zkSecret0 : List Nat := strBytes ("s3cret")

def zkPub0 : List Nat := strBytes ("pub")

def zkPubTampered : List Nat := strBytes ("pub-tampered")

def falconKey0 : CryptoKey :=
  ⟨KeyType.falcon, some (List.replicate 16 1), 16, 0, 0, none, 0, kyberKpEmpty, falconKp0⟩

def zkParams0 : QzkpVerifyParams := ⟨0, 10⟩

/-- Signed proof produced by the adapter for secret "s3cret" and public
input "pub" under `falconKey0` (challenge and nonce draws all-zero). -/
def zkProof0 : QzkpProof :=
  match crypto_generate_zkproof gOn (some (List.replicate 32 0)) (some (List.replicate 16 0))
      zkSecret0 zkPub0 (some falconKey0) with
  | .ok p => p
  | .error _ => ⟨none, 0, none, 0, none, 0⟩

def expiredFalconKey : CryptoKey :=
  ⟨KeyType.falcon, some (List.replicate 16 2), 16, 1, 5, none, 0, kyberKpEmpty, falconKp0⟩

def kyberKp0 : KyberKeypair := kyber_keygen (List.replicate 32 0)

def expiredKyberKey : CryptoKey :=
  ⟨KeyType.kyber, some (List.replicate 16 3), 16, 1, 5, none, 0, kyberKp0, falconKpEmpty⟩

def symKeyId : List Nat := List.replicate 16 7

def symKey0 : CryptoKey :=
  ⟨KeyType.symmetric, some symKeyId, 16, 0, 0, some (List.replicate 32 5), 32,
   kyberKpEmpty, falconKpEmpty⟩

def emptyCommitProof : QzkpProof := ⟨some [], 0, some [7], 1, some (List.replicate 32 9), 32⟩

/-! ## Theorems -/

/-- Sanity: `forceNat` is the identity continuation. -/
theorem forceNat_eq {A : Type} (n : Nat) (k : Nat → A) : forceNat n k = k n := by
  cases n <;> rfl

/-- Sanity: NIST test vector SHA-256("abc"). -/
theorem sha256_vector_abc : sha256 (strBytes ("abc")) =
    [0xba, 0x78, 0x16, 0xbf, 0x8f, 0x01, 0xcf, 0xea, 0x41, 0x41, 0x40, 0xde, 0x5d, 0xae,
     0x22, 0x23, 0xb0, 0x03, 0x61, 0xa3, 0x96, 0x17, 0x7a, 0x9c, 0xb4, 0x10, 0xff, 0x61,
     0xf2, 0x00, 0x15, 0xad] := by decide

/-- C10: `kyber_encapsulate` is deterministic in its public-key argument —
the drawn ephemeral bytes are overwritten with the fixed sequence 1..32, so
any two successful invocations (any two successful `RAND_bytes` draws)
produce identical ciphertext-and-shared-secret results. -/
theorem kyber_encapsulate_deterministic (r1 r2 pk : List Nat) :
    kyber_encapsulate true (some r1) pk = kyber_encapsulate true (some r2) pk ∧
    ∃ ct ss, kyber_encapsulate true (some r1) pk = .ok (ct, ss) :=
  ⟨rfl, _, _, rfl⟩

/-- C9: a key with nonzero `expiration_time` earlier than the current time
makes `crypto_sign_message` and `crypto_establish_key` fail with the
dedicated code -3, distinct from -1 (not initialized), -2 (wrong key kind)
and -4 (buffer too small); the error return means no signature/ciphertext
output is produced. -/
theorem expired_key_rejected (g : GlobalState) (nr rand : Option (List Nat))
    (now bufLen : Nat) (msg : List Nat) (fk kk : CryptoKey)
    (hg : g.adapter_inited = true)
    (hf : fk.ktype = KeyType.falcon) (hk : kk.ktype = KeyType.kyber)
    (hfe : 0 < fk.expiration_time) (hfe2 : fk.expiration_time < now)
    (hke : 0 < kk.expiration_time) (hke2 : kk.expiration_time < now) :
    crypto_sign_message g nr now bufLen msg (some fk) = .error (-3) ∧
    crypto_establish_key g rand now (some kk) = .error (-3) ∧
    ((-3 : Int) ≠ -1 ∧ (-3 : Int) ≠ -2 ∧ (-3 : Int) ≠ -4) := by
  refine ⟨?_, ?_, by decide⟩
  · simp [crypto_sign_message, hg, hf, hfe, hfe2]
  · simp [crypto_establish_key, hg, hk, hke, hke2]

/-- Witness for C9 at a concrete expired key (expiry 5, now 10). -/
theorem expired_key_rejected_witness :
    crypto_sign_message gOn none 10 700 [] (some expiredFalconKey) = .error (-3) ∧
    crypto_establish_key gOn none 10 (some expiredKyberKey) = .error (-3) ∧
    ((-3 : Int) ≠ -1 ∧ (-3 : Int) ≠ -2 ∧ (-3 : Int) ≠ -4) :=
  expired_key_rejected gOn none none 10 700 [] expiredFalconKey expiredKyberKey
    rfl rfl rfl (by decide) (by decide) (by decide) (by decide)

/-- C6 counterexample: a proof whose commitment is a non-NULL buffer of size
ZERO (and whose challenge size is 1) is ACCEPTED by `qzkp_verify_proof`,
because only the pointers and `response_size` are examined. -/
theorem qzkp_verify_accepts_empty_commitment :
    emptyCommitProof.commit_size = 0 ∧
    qzkp_verify_proof true (some emptyCommitProof) [3] 1 (some zkParams0) = true := by
  decide

/-- C6 amended: with the engine initialized and non-NULL proof/params,
`qzkp_verify_proof` accepts iff the three buffers are non-NULL and
`response_size` = 32; the commitment/challenge sizes and the public input
are not examined. -/
theorem qzkp_verify_proof_characterization (p : QzkpProof) (pub : List Nat)
    (pubSize : Nat) (pr : QzkpVerifyParams) :
    qzkp_verify_proof true (some p) pub pubSize (some pr) = true ↔
      (p.commitment ≠ none ∧ p.challenge ≠ none ∧ p.response ≠ none ∧
       p.response_size = 32) := by
  by_cases h1 : p.commitment = none <;>
    by_cases h2 : p.challenge = none <;>
      by_cases h3 : p.response = none <;>
        simp [qzkp_verify_proof, h1, h2, h3]

/-- C5 counterexample: node 0 already has a computed digest, and adding a
self-dependency (a cycle) still succeeds — `le_add_dependency` returns 0 and
appends the edge. -/
theorem add_dependency_ignores_frozen_and_cycle :
    ((leSoloStoreH.get? 0).map ENode.hash).getD none ≠ none ∧
    (le_add_dependency true leSoloStoreH 0 0).2 = 0 ∧
    ((le_add_dependency true leSoloStoreH 0 0).1.get? 0).map ENode.deps = some [0] := by
  refine ⟨?_, ?_, ?_⟩ <;> decide

/-- C5 amended: with the engine initialized and both node pointers valid,
`le_add_dependency` unconditionally appends the dependency and returns 0 —
no frozen-digest check, no cycle check. -/
theorem add_dependency_appends_unconditionally (st : LEStore) (nid did : Nat)
    (n d : ENode) (hn : st.get? nid = some n) (hd : st.get? did = some d) :
    le_add_dependency true st nid did = (st.set nid ⟨n.data, n.hash, n.deps ++ [did]⟩, 0) := by
  rw [List.get?_eq_getElem?] at hn hd
  simp [le_add_dependency, hn, hd]

/-- Witness for the amended C5 statement at a concrete store. -/
theorem add_dependency_appends_unconditionally_witness :
    le_add_dependency true [emptyNode] 0 0 = ([⟨[], none, [0]⟩], 0) :=
  add_dependency_appends_unconditionally [emptyNode] 0 0 emptyNode emptyNode rfl rfl

/-- C7 counterexample: from the fresh process state, `crypto_adapter_init`
with PQ enabled succeeds (returns 0) yet never initializes the logical
entanglement engine — its flag is still false afterwards. -/
theorem adapter_init_skips_entanglement_engine :
    (crypto_adapter_init true true true (some params0) gFresh).2 = 0 ∧
    (crypto_adapter_init true true true (some params0) gFresh).1.le_inited = false ∧
    (crypto_adapter_init true true true (some params0) gFresh).1.adapter_inited = true := by
  decide

/-- C7 amended: `crypto_adapter_init` is idempotent; from the fresh state it
initializes the ZKP engine, then (when `use_pq_crypto`) the KEM and the
signature primitive, in that order, and stores the parameters — the
entanglement engine is never initialized; a Kyber-init failure tears down
the ZKP engine, a Falcon-init failure tears down Kyber and the ZKP engine,
and either failure returns the sub-error (-1) leaving the whole state as it
was before the call. -/
theorem crypto_adapter_init_behaviour :
    (∀ qp kp fp params g, g.adapter_inited = true →
      crypto_adapter_init qp kp fp params g = (g, 0)) ∧
    (∀ hy path, crypto_adapter_init true true true (some ⟨true, hy, path⟩) gFresh =
      (⟨true, true, true, false, true, true, hy, path⟩, 0)) ∧
    (∀ hy path, crypto_adapter_init true true true (some ⟨false, hy, path⟩) gFresh =
      (⟨true, false, false, false, true, false, hy, path⟩, 0)) ∧
    (∀ p, crypto_adapter_init false true true (some p) gFresh = (gFresh, -1)) ∧
    (∀ hy path fp, crypto_adapter_init true false fp (some ⟨true, hy, path⟩) gFresh =
      (gFresh, -1)) ∧
    (∀ hy path, crypto_adapter_init true true false (some ⟨true, hy, path⟩) gFresh =
      (gFresh, -1)) := by
  refine ⟨?_, ?_, ?_, ?_, ?_, ?_⟩
  · intro qp kp fp params g h
    simp [crypto_adapter_init, h]
  · intro hy path; rfl
  · intro hy path; rfl
  · intro p; rfl
  · intro hy path fp; rfl
  · intro hy path; rfl

/-- Witness for the amended C7 statement at concrete states. -/
theorem crypto_adapter_init_behaviour_witness :
    crypto_adapter_init true true true (some params0) gOn = (gOn, 0) ∧
    crypto_adapter_init true true true (some params0) gFresh =
      (⟨true, true, true, false, true, true, true, none⟩, 0) ∧
    crypto_adapter_init true false true (some params0) gFresh = (gFresh, -1) :=
  ⟨crypto_adapter_init_behaviour.1 true true true (some params0) gOn rfl,
   crypto_adapter_init_behaviour.2.1 true none,
   crypto_adapter_init_behaviour.2.2.2.2.1 true none true⟩

/-- C8 counterexample: `crypto_free_key` releases the key-id buffer without
wiping it — at free time the buffer still holds its original non-zero
bytes. -/
theorem free_key_releases_id_unwiped :
    (crypto_free_key symKey0).freed_key_id = some symKeyId ∧
    symKeyId ≠ List.replicate 16 0 := by
  decide

/-- C8 amended: `crypto_free_key` zeroes the whole key structure (which is
what wipes the embedded Kyber/Falcon secret material) and wipes the
symmetric key bytes before freeing them, but the key-id buffer is released
holding its original contents, unwiped. -/
theorem crypto_free_key_behaviour (k : CryptoKey) :
    (crypto_free_key k).final = zeroKey ∧
    (crypto_free_key k).freed_key_id = k.key_id ∧
    (∀ s, k.ktype = KeyType.symmetric → k.sym_key = some s → k.sym_key_size = s.length →
      (crypto_free_key k).freed_sym_key = some (List.replicate s.length 0)) := by
  refine ⟨rfl, rfl, ?_⟩
  intro s ht hs hsz
  simp [crypto_free_key, ht, hs, hsz, memsetZero]

/-- Witness for the amended C8 statement at a concrete symmetric key. -/
theorem crypto_free_key_behaviour_witness :
    (crypto_free_key symKey0).final = zeroKey ∧
    (crypto_free_key symKey0).freed_sym_key = some (List.replicate 32 0) :=
  ⟨(crypto_free_key_behaviour symKey0).1,
   (crypto_free_key_behaviour symKey0).2.2 (List.replicate 32 5) rfl rfl (by decide)⟩

/-- C3 counterexample: a proof generated by the adapter for public input
"pub" under a Falcon key is ACCEPTED (result 1) by `crypto_verify_zkproof`
against the different public input "pub-tampered" — the attached signature
is never checked and only length-29 public inputs can be rejected. -/
theorem verify_zkproof_accepts_tampered_public_input :
    crypto_generate_zkproof gOn (some (List.replicate 32 0)) (some (List.replicate 16 0))
        zkSecret0 zkPub0 (some falconKey0) = .ok zkProof0 ∧
    zkPubTampered ≠ zkPub0 ∧
    crypto_verify_zkproof gOn (some zkProof0) zkPubTampered 12 (some falconKey0)
        (some zkParams0) = 1 := by
  exact ⟨rfl, by decide, by decide⟩

/-- C3 amended: generation does rewrite the response as
original_response ‖ size_t(sig_len) ‖ signature over the digest of
(commitment ‖ challenge ‖ response); but `crypto_verify_zkproof` does not
invert this construction — for a structurally non-empty proof under PQ with
a Falcon key it returns 0 exactly when the public input has length 29 and
differs from the literal "public_input_for_verification", and 1 otherwise,
without ever checking the attached signature. -/
theorem crypto_zkproof_layout_and_lax_verify :
    (∀ (cr nr secret pub : List Nat) (k : CryptoKey),
      secret ≠ [] → k.ktype = KeyType.falcon →
      ∃ base sig,
        qzkp_generate_proof gOn.qzkp_inited (some cr) secret pub = some base ∧
        falcon_sign gOn.falcon_inited (some nr)
          (sha256 (readBytes (base.commitment.getD []) base.commit_size ++
            readBytes (base.challenge.getD []) base.challenge_size ++
            readBytes (base.response.getD []) base.response_size))
          k.falcon_kp.secret_key = .ok (sig, 49) ∧
        crypto_generate_zkproof gOn (some cr) (some nr) secret pub (some k) =
          .ok ⟨base.commitment, base.commit_size, base.challenge, base.challenge_size,
               some (readBytes (base.response.getD []) base.response_size ++
                 leBytes 8 49 ++ readBytes sig 49),
               base.response_size + 8 + 49⟩) ∧
    (∀ (p : QzkpProof) (pub : List Nat) (pubSize : Nat) (k : CryptoKey)
      (pr : QzkpVerifyParams),
      k.ktype = KeyType.falcon →
      p.commitment ≠ none → p.challenge ≠ none → p.response ≠ none →
      p.commit_size ≠ 0 → p.challenge_size ≠ 0 → 32 ≤ p.response_size →
      crypto_verify_zkproof gOn (some p) pub pubSize (some k) (some pr) =
        if pubSize = 29 ∧ readBytes pub 29 ≠ testPublicInput then 0 else 1) := by
  constructor
  · intro cr nr secret pub k hs hk
    have h1 : qzkp_generate_proof gOn.qzkp_inited (some cr) secret pub =
        some ⟨some (sha256 (secret ++ pub)), 32, some (readBytes cr 32), 32,
              some (sha256 (secret ++ readBytes cr 32)), 32⟩ := by
      simp [qzkp_generate_proof, hs, gOn]
    refine ⟨_, _, h1, rfl, ?_⟩
    simp only [crypto_generate_zkproof, h1]
    simp [falcon_sign, hk, gOn]
  · intro p pub pubSize k pr hk h1 h2 h3 h4 h5 h6
    have h7 : ¬ p.response_size < 32 := Nat.not_lt.mpr h6
    have h8 : p.response_size ≠ 0 := by omega
    simp [crypto_verify_zkproof, hk, h1, h2, h3, h4, h5, h7, h8, gOn]

/-- Witness for the amended C3 statement at the concrete inputs of scenario
S4 (secret "s3cret", public input "pub", all-zero randomness draws). -/
theorem crypto_zkproof_layout_and_lax_verify_witness :
    (∃ base sig,
      qzkp_generate_proof gOn.qzkp_inited (some (List.replicate 32 0)) zkSecret0 zkPub0 =
        some base ∧
      falcon_sign gOn.falcon_inited (some (List.replicate 16 0))
        (sha256 (readBytes (base.commitment.getD []) base.commit_size ++
          readBytes (base.challenge.getD []) base.challenge_size ++
          readBytes (base.response.getD []) base.response_size))
        falconKey0.falcon_kp.secret_key = .ok (sig, 49) ∧
      crypto_generate_zkproof gOn (some (List.replicate 32 0)) (some (List.replicate 16 0))
          zkSecret0 zkPub0 (some falconKey0) =
        .ok ⟨base.commitment, base.commit_size, base.challenge, base.challenge_size,
             some (readBytes (base.response.getD []) base.response_size ++
               leBytes 8 49 ++ readBytes sig 49),
             base.response_size + 8 + 49⟩) ∧
    crypto_verify_zkproof gOn (some zkProof0) zkPub0 3 (some falconKey0) (some zkParams0) = 1 :=
  ⟨crypto_zkproof_layout_and_lax_verify.1 (List.replicate 32 0) (List.replicate 16 0)
      zkSecret0 zkPub0 falconKey0 (by decide) rfl,
   crypto_zkproof_layout_and_lax_verify.2 zkProof0 zkPub0 3 falconKey0 zkParams0 rfl
      (by decide) (by decide) (by decide) (by decide) (by decide) (by decide)⟩

/-- Helper: indexing a mapped range. -/
theorem getD_range_map (f : Nat → Nat) {n i : Nat} (h : i < n) (d : Nat) :
    ((List.range n).map f).getD i d = f i := by
  simp [List.getD_eq_getElem?_getD, List.getElem?_map, List.getElem?_range h]

/-- C2: for every keypair produced by `kyber_keygen`, a successful
`kyber_encapsulate` under the public key followed by `kyber_decapsulate` of
the ciphertext under the secret key reproduces the identical shared secret:
decapsulation re-derives the same public key from the secret key (the
derivation block is shared), recovers the fixed ephemeral bytes by XOR, and
recomputes the same SHA-256. -/
theorem kyber_kem_roundtrip (seed r ct ss : List Nat)
    (h : kyber_encapsulate true (some r) (kyber_keygen seed).public_key = .ok (ct, ss)) :
    kyber_decapsulate true ct (kyber_keygen seed).secret_key = .ok ss := by
  have hpk : (kyber_keygen seed).public_key = kyber_derive_pk (kyber_keygen seed).secret_key :=
    rfl
  rw [hpk] at h
  set sk := (kyber_keygen seed).secret_key with hsk
  set pk := kyber_derive_pk sk with hpkdef
  simp only [kyber_encapsulate] at h
  rw [if_neg (by decide)] at h
  simp only [Except.ok.injEq, Prod.mk.injEq] at h
  obtain ⟨hct, hss⟩ := h
  have hE : (List.range 32).map (fun i => ct.getD i 0 ^^^ pk.getD (i % 1184) 0) =
      (List.range 32).map (fun i => i + 1) := by
    apply List.map_congr_left
    intro i hi
    have hi32 : i < 32 := List.mem_range.mp hi
    have hmod : i % 1184 = i := Nat.mod_eq_of_lt (by omega)
    have hlen : i < ((List.range (1088 - 32)).map
        (fun j => (((List.range 32).map (fun t => t + 1)).getD (j % 32) 0) ^^^
          pk.getD (j % 1184) 0)).length := by
      simp
      omega
    have hcti : ct.getD i 0 = (i + 1) ^^^ pk.getD (i % 1184) 0 := by
      rw [← hct, List.getD_append _ _ _ _ hlen,
        getD_range_map _ (show i < 1088 - 32 by omega),
        Nat.mod_eq_of_lt hi32, getD_range_map _ hi32]
    rw [hcti, hmod, Nat.xor_cancel_right]
  simp only [kyber_decapsulate]
  rw [if_neg (by decide), ← hpkdef, hE, ← hct, ← hss]

/-- Witness for C2 at the all-empty randomness draws (the embedding pads
reads with zero bytes, matching uninitialized C buffers of the right size). -/
theorem kyber_kem_roundtrip_witness :
    ∃ ct ss, kyber_encapsulate true (some []) (kyber_keygen []).public_key = .ok (ct, ss) ∧
      kyber_decapsulate true ct (kyber_keygen []).secret_key = .ok ss :=
  ⟨_, _, rfl, kyber_kem_roundtrip [] [] _ _ rfl⟩

/-- Helper: reading from a NULL-like empty buffer yields zero bytes. -/
theorem readBytes_nil (n : Nat) : readBytes [] n = List.replicate n 0 := by
  simp [readBytes, List.getD]

/-- Helper: reading exactly the prefix of an appended buffer. -/
theorem readBytes_append_len (l1 l2 : List Nat) (n : Nat) (h : l1.length = n) :
    readBytes (l1 ++ l2) n = l1 := by
  subst h
  apply List.ext_getElem
  · simp [readBytes]
  · intro i h1 h2
    simp only [readBytes, List.getElem_map, List.getElem_range]
    rw [List.getD_append]
    · exact List.getD_eq_getElem l1 0 (by simpa [readBytes] using h2)
    · simpa [readBytes] using h1

/-- Helper: the forced compression output has eight words. -/
theorem length_compressBlockF (hs blk : List Nat) : (compressBlockF hs blk).length = 8 := by
  simp [compressBlockF, forceNat_eq]

/-- Helper: the block iteration preserves the eight-word state length. -/
theorem length_sha256Blocks : ∀ (fuel : Nat) (l hs : List Nat), hs.length = 8 →
    (sha256Blocks fuel l hs).length = 8 := by
  intro fuel
  induction fuel with
  | zero => intro l hs h; simpa [sha256Blocks] using h
  | succ n ih =>
    intro l hs h
    cases l with
    | nil => simpa [sha256Blocks] using h
    | cons a t =>
      show (sha256Blocks n (chunkStep 64 [] (a :: t)).2
        (compressBlockF hs (chunkStep 64 [] (a :: t)).1)).length = 8
      exact ih _ _ (length_compressBlockF _ _)

/-- Helper: the word-to-byte fold yields four bytes per word. -/
theorem length_foldr_words : ∀ (l : List Nat),
    (l.foldr (fun w acc =>
      (w >>> 24) % 256 :: (w >>> 16) % 256 :: (w >>> 8) % 256 :: w % 256 :: acc) []).length =
    4 * l.length := by
  intro l
  induction l with
  | nil => rfl
  | cons a t ih =>
    simp [List.foldr_cons, ih]
    ring

/-- Helper: every SHA-256 digest has 32 bytes. -/
theorem length_sha256 (msg : List Nat) : (sha256 msg).length = 32 := by
  show ((sha256Blocks (listLenAux (sha256Pad msg) 0) (sha256Pad msg) sha256H0).foldr
    (fun w acc =>
      (w >>> 24) % 256 :: (w >>> 16) % 256 :: (w >>> 8) % 256 :: w % 256 :: acc) []).length = 32
  rw [length_foldr_words, length_sha256Blocks (listLenAux (sha256Pad msg) 0) (sha256Pad msg)
    sha256H0 rfl]

/-- C1 (code bug): a signature genuinely produced by `falcon_sign` is
REJECTED (0, invalid) by `falcon_verify` under the matching public key from
`falcon_keygen` — signing HMACs under the first 32 secret-key bytes while
verification HMACs under SHA-256 of the first 32 public-key bytes, so the
two MACs never agree; evaluated here at the all-zero keypair draw and the
one-byte message "a". -/
theorem falcon_roundtrip_rejects_genuine_signature :
    falcon_sign true (some []) falconDemoMsg falconKp0.secret_key =
      .ok (falconDemoSignature, 49) ∧
    falcon_verify true falconDemoSignature falconDemoMsg falconKp0.public_key = 0 := by
  refine ⟨rfl, ?_⟩
  have hsig : falconDemoSignature = sigLit := by decide
  have hlit : sha256 (List.replicate 1281 0) = pkHeadLit := by decide
  have hpk32 : readBytes falconKp0.public_key 32 = pkHeadLit := by
    have h1 : falconKp0.public_key =
        sha256 (readBytes [] 1281) ++ (List.range' 32 (897 - 32)).map
          (fun i => ((readBytes [] 1281).getD (i % 1281) 0 + i) % 256) := rfl
    rw [h1, readBytes_append_len _ _ _ (length_sha256 _), readBytes_nil, hlit]
  rw [hsig]
  simp only [falcon_verify]
  rw [if_neg (by decide), if_neg (by decide), if_neg (by decide), if_neg (by decide),
    if_neg (by decide), hpk32, if_pos (by decide)]

/-- C4 (code bug): the scenario of the repository's own test
(test_logical_entanglement.c): three nodes with dependencies, node hashes
and a root hash computed, then node 0's payload tampered (byte 10 set to
'X').  `le_verify_graph` still returns TRUE — its recomputation reuses every
cached node digest, so payload mutations after digest computation are not
detected. -/
theorem verify_graph_accepts_tampered_payload :
    leRootRes.2.2 = 0 ∧
    leGraph1.root_hash.isSome = true ∧
    leTamperedData ≠ leData1 ∧
    ((leStore8.get? 0).map ENode.data) = some leTamperedData ∧
    (le_verify_graph 10 true leStore8 leGraph1).2 = true := by
  decide

end HydraNews
